import Mathlib

/-!
Shallow embedding of `src/ocrmypdf/builtin_plugins/tesseract_ocr.py`:
the option checking of the Tesseract OCR plugin (`check_options`), thread-budget
validation (`validate`), and the argument pass-through of
`TesseractOcrEngine.generate_hocr` / `generate_pdf`.

Modelling conventions:
- Python non-negative machine-free integers become `Nat`; Python `//` on
  non-negative operands is `Nat` division.
- The only environment variable the code reads or writes is
  `OMP_THREAD_LIMIT`, so the process environment is modelled as the state of
  that single variable (`Env`).
- `str.isnumeric` is modelled for ASCII strings, where it holds exactly when
  the string is non-empty and consists of decimal digits; on that domain
  Python `int()` is total and is modelled by `pyInt`.
- Fallible code returns `Except PyError`; `PyError.zeroDivision` models
  the Python `ZeroDivisionError` and `PyError.configuration` models the
  `ConfigurationError` named by the documentation (the embedded code paths
  never construct it, mirroring the source).
- `log.warning` calls are modelled by returning the list of warnings emitted;
  `log.debug` output is not modelled.
- `check_external_program` (the engine availability/version probe) is an
  external collaborator; `check_options` is embedded from the point after the
  probe has succeeded, and the probed capability `tesseract.has_thresholding()`
  is passed in as a boolean parameter.
-/

deriving instance DecidableEq for Except

namespace OcrTess

/-- Errors that the modelled code paths can raise. `zeroDivision` models
the Python `ZeroDivisionError`; `configuration` models the ocrmypdf
`ConfigurationError` (present in the taxonomy, never raised by the code
embedded here). -/
inductive PyError where
  | zeroDivision
  | configuration
deriving DecidableEq, Repr

/-- Python `str.isnumeric`, restricted to ASCII strings: true exactly when the
string is non-empty and every character is a decimal digit. (Full Python
`isnumeric` also accepts non-ASCII numeric characters; the claims only concern
integer-valued override strings, where the ASCII model is exact.) -/
def isnumeric (s : String) : Bool :=
  !s.data.isEmpty && s.data.all Char.isDigit

/-- Python `int(s)` on a string of decimal digits (the only shape reaching the
`int` call in the source, guarded by `isnumeric`). -/
def pyInt (s : String) : Nat :=
  s.data.foldl (fun a c => a * 10 + (c.toNat - 48)) 0

/-- Modelled from the spec: `clamp` from `ocrmypdf.helpers`, imported by the
source file but not present under `src/`. The spec describes it as
`clamp(n, smallest, largest)` restricting `n` to `[smallest, largest]`,
i.e. `max(smallest, min(n, largest))`. -/
def clamp (n smallest largest : Nat) : Nat :=
  max smallest (min n largest)

/-- The state of the `OMP_THREAD_LIMIT` process environment variable, the only
environment state the source reads or writes (`none` = variable absent). -/
structure Env where
  ompThreadLimit : Option String
deriving DecidableEq, Repr

/-- The expression `os.environ.get` applied to `OMP_THREAD_LIMIT` with default
empty string. -/
def Env.getOmp (e : Env) : String :=
  e.ompThreadLimit.getD ""

/-- The resolved options object, restricted to the fields this plugin reads or
writes. `tesseract_timeout` is a float of seconds in the source; it is only
carried, never computed with, so it is modelled as `Rat`. `tesseract_pagesegmode`
and `tesseract_oem` default to `None` in argparse, hence `Option Nat`.
`tesseract_thresholding` is the integer produced by
`str_to_int(TESSERACT_THRESHOLDING_METHODS)` (0 = auto, the default). -/
structure Options where
  pdf_renderer : String
  languages : List String
  jobs : Nat
  tesseract_config : List String
  tesseract_pagesegmode : Option Nat
  tesseract_oem : Option Nat
  tesseract_thresholding : Nat
  tesseract_timeout : Rat
  user_words : Option String
  user_patterns : Option String
deriving DecidableEq, Repr

/-- Warnings that `check_options` can emit via `log.warning`. -/
inductive Warning where
  | thresholdingUnsupported
  | pagesegmodeDisablesOcr
deriving DecidableEq, Repr

/-- `check_options(options)` from the source, embedded from the point after
`check_external_program` has succeeded. `has_thresholding` is the probed
capability `tesseract.has_thresholding()`. Returns the (possibly rewritten)
options together with the warnings emitted, in emission order. -/
def check_options (has_thresholding : Bool) (options : Options) :
    Options × List Warning :=
  let options :=
    if options.pdf_renderer = "auto" then
      { options with pdf_renderer := "sandwich" }
    else options
  let w1 :=
    if !has_thresholding ∧ options.tesseract_thresholding ≠ 0 then
      [Warning.thresholdingUnsupported]
    else []
  let w2 :=
    if options.tesseract_pagesegmode = some 0 ∨
        options.tesseract_pagesegmode = some 2 then
      [Warning.pagesegmodeDisablesOcr]
    else []
  (options, w1 ++ w2)

/-- `validate(pdfinfo, options)` from the source. `pdfinfoLen` is
`len(pdfinfo)` (the total page count). Returns the adopted thread budget
`tess_threads` and the resulting environment state, or the Python error
raised. Mirrors the source exactly: if `OMP_THREAD_LIMIT` is not a numeric
string, compute `clamp(options.jobs // len(pdfinfo), 1, 3)` (raising
`ZeroDivisionError` when the page count is 0) and write it to the
environment; otherwise adopt `int()` of the existing value and leave the
environment untouched. -/
def validate (pdfinfoLen : Nat) (options : Options) (env : Env) :
    Except PyError (Nat × Env) :=
  if !(isnumeric env.getOmp) then
    if pdfinfoLen = 0 then
      .error .zeroDivision
    else
      let tess_threads := clamp (options.jobs / pdfinfoLen) 1 3
      .ok (tess_threads, ⟨some (toString tess_threads)⟩)
  else
    .ok (pyInt env.getOmp, env)

/-- The argument record of an outgoing engine call assembled by
`ocrmypdf._exec.tesseract.generate_hocr` / `generate_pdf`. A `none`
`thresholding` means the thresholding option is omitted from the engine
command line. -/
structure EngineCall where
  languages : List String
  engine_mode : Option Nat
  tessconfig : List String
  timeout : Rat
  pagesegmode : Option Nat
  thresholding : Option Nat
  user_words : Option String
  user_patterns : Option String
deriving DecidableEq, Repr

/-- Modelled from the spec: the thresholding argument assembly inside
`ocrmypdf._exec.tesseract` (imported by the source file but not present under
`src/`). Per the spec, the thresholding method is passed to the engine only if
the probe confirmed support, otherwise silently omitted. -/
def outgoingThresholding (has_thresholding : Bool) (thresholding : Nat) :
    Option Nat :=
  if has_thresholding then some thresholding else none

/-- `TesseractOcrEngine.generate_hocr` from the source: passes the options
fields through to `tesseract.generate_hocr` verbatim; the `_exec` layer then
omits thresholding when unsupported (see `outgoingThresholding`). -/
def generate_hocr (has_thresholding : Bool) (options : Options) : EngineCall :=
  { languages := options.languages
    engine_mode := options.tesseract_oem
    tessconfig := options.tesseract_config
    timeout := options.tesseract_timeout
    pagesegmode := options.tesseract_pagesegmode
    thresholding :=
      outgoingThresholding has_thresholding options.tesseract_thresholding
    user_words := options.user_words
    user_patterns := options.user_patterns }

/-- `TesseractOcrEngine.generate_pdf` from the source: same pass-through as
`generate_hocr`. -/
def generate_pdf (has_thresholding : Bool) (options : Options) : EngineCall :=
  { languages := options.languages
    engine_mode := options.tesseract_oem
    tessconfig := options.tesseract_config
    timeout := options.tesseract_timeout
    pagesegmode := options.tesseract_pagesegmode
    thresholding :=
      outgoingThresholding has_thresholding options.tesseract_thresholding
    user_words := options.user_words
    user_patterns := options.user_patterns }

/-- A concrete options record used to instantiate witnesses. -/
def sampleOptions : Options :=
  { pdf_renderer := "auto"
    languages := ["eng"]
    jobs := 4
    tesseract_config := []
    tesseract_pagesegmode := none
    tesseract_oem := none
    tesseract_thresholding := 0
    tesseract_timeout := 180
    user_words := none
    user_patterns := none }

/-- A concrete options record requesting the sauvola thresholding method
(index 2) together with pagesegmode 0, used for the C8 witness. -/
def sauvolaOptions : Options :=
  { sampleOptions with
    tesseract_thresholding := 2
    tesseract_pagesegmode := some 0 }

end OcrTess

namespace OcrTess

/-- Helper: on a numeric `OMP_THREAD_LIMIT`, `validate` takes the adopt
branch. -/
theorem validate_adopt (p : Nat) (o : Options) (env : Env)
    (hn : isnumeric env.getOmp = true) :
    validate p o env = .ok (pyInt env.getOmp, env) := by
  simp [validate, hn]

/-- Helper: on a non-numeric `OMP_THREAD_LIMIT` and a positive page count,
`validate` takes the compute branch. -/
theorem validate_compute (p : Nat) (o : Options) (env : Env)
    (hn : isnumeric env.getOmp = false) (hp : p ≠ 0) :
    validate p o env =
      .ok (clamp (o.jobs / p) 1 3,
        ⟨some (toString (clamp (o.jobs / p) 1 3))⟩) := by
  simp [validate, hn, hp]

/-- Helper: a zero page count with no numeric override raises
division-by-zero. -/
theorem validate_zero_div (o : Options) (env : Env)
    (h : isnumeric env.getOmp = false) :
    validate 0 o env = .error PyError.zeroDivision := by
  simp [validate, h]

/-- Helper: bounds of the clamped budget. -/
theorem clamp13_bounds (n : Nat) : 1 ≤ clamp n 1 3 ∧ clamp n 1 3 ≤ 3 := by
  simp only [clamp]
  omega

/-- Helper: decimal printing and reparsing round-trips on the values the
compute branch can publish. -/
theorem small_roundtrip (t : Nat) (h1 : 1 ≤ t) (h3 : t ≤ 3) :
    isnumeric (toString t) = true ∧ pyInt (toString t) = t := by
  interval_cases t <;> exact ⟨by decide, by decide⟩

/-- C1: for worker count w >= 1 and page count p >= 1 with no override
present, `validate` computes the thread budget as clamp(w / p, 1, 3); in
particular w=4, p=1 yields 3; w=4, p=10 yields 1; w=8, p=2 yields 3. -/
theorem validate_computes_clamped_budget (o : Options) (p : Nat)
    (hw : 1 ≤ o.jobs) (hp : 1 ≤ p) :
    (validate p o ⟨none⟩).map Prod.fst = .ok (clamp (o.jobs / p) 1 3) ∧
    (validate 1 sampleOptions ⟨none⟩).map Prod.fst = .ok 3 ∧
    (validate 10 sampleOptions ⟨none⟩).map Prod.fst = .ok 1 ∧
    (validate 2 { sampleOptions with jobs := 8 } ⟨none⟩).map Prod.fst
      = .ok 3 := by
  refine ⟨?_, by decide, by decide, by decide⟩
  rw [validate_compute p o ⟨none⟩ (by decide) (by omega)]
  rfl

/-- Witness for C1 at w=4, p=2. -/
theorem validate_computes_clamped_budget_witness :
    (validate 2 sampleOptions ⟨none⟩).map Prod.fst
        = .ok (clamp (sampleOptions.jobs / 2) 1 3) ∧
    (validate 1 sampleOptions ⟨none⟩).map Prod.fst = .ok 3 ∧
    (validate 10 sampleOptions ⟨none⟩).map Prod.fst = .ok 1 ∧
    (validate 2 { sampleOptions with jobs := 8 } ⟨none⟩).map Prod.fst
      = .ok 3 :=
  validate_computes_clamped_budget sampleOptions 2 (by decide) (by decide)

/-- C2: with no override present, the computed budget lies in [1, 3] and is
non-increasing in the page count for a fixed worker count. -/
theorem validate_budget_bounds_mono (o : Options) (p q : Nat)
    (hw : 1 ≤ o.jobs) (hp : 1 ≤ p) (hpq : p ≤ q) :
    ∃ t u : Nat,
      (validate p o ⟨none⟩).map Prod.fst = .ok t ∧
      (validate q o ⟨none⟩).map Prod.fst = .ok u ∧
      1 ≤ t ∧ t ≤ 3 ∧ u ≤ t := by
  refine ⟨clamp (o.jobs / p) 1 3, clamp (o.jobs / q) 1 3, ?_, ?_, ?_, ?_, ?_⟩
  · rw [validate_compute p o ⟨none⟩ (by decide) (by omega)]; rfl
  · rw [validate_compute q o ⟨none⟩ (by decide) (by omega)]; rfl
  · exact (clamp13_bounds _).1
  · exact (clamp13_bounds _).2
  · have hdiv : o.jobs / q ≤ o.jobs / p := Nat.div_le_div_left hpq (by omega)
    simp only [clamp]
    omega

/-- Witness for C2 at w=4, p=1, q=10. -/
theorem validate_budget_bounds_mono_witness :
    ∃ t u : Nat,
      (validate 1 sampleOptions ⟨none⟩).map Prod.fst = .ok t ∧
      (validate 10 sampleOptions ⟨none⟩).map Prod.fst = .ok u ∧
      1 ≤ t ∧ t ≤ 3 ∧ u ≤ t :=
  validate_budget_bounds_mono sampleOptions 1 10 (by decide) (by decide)
    (by decide)

/-- C3: when `OMP_THREAD_LIMIT` is present and is a valid non-negative
integer string, `validate` adopts int() of it verbatim, with no clamping and
no write to the environment. -/
theorem validate_adopts_numeric_override (p : Nat) (o : Options) (s : String)
    (h : isnumeric s = true) :
    validate p o ⟨some s⟩ = .ok (pyInt s, ⟨some s⟩) :=
  validate_adopt p o ⟨some s⟩ h

/-- Witness for C3: the override 7 is adopted unclamped, above the computed
ceiling of 3, and the environment keeps the value 7. -/
theorem validate_adopts_numeric_override_witness :
    isnumeric "7" = true ∧
    validate 1 sampleOptions ⟨some "7"⟩ = .ok (7, ⟨some "7"⟩) :=
  ⟨by decide,
    (validate_adopts_numeric_override 1 sampleOptions "7" (by decide)).trans
      (by decide)⟩


/-- C4 counterexample: with the override set to the invalid value "-1"
(negative, hence not numeric), `validate` does not fail with a configuration
error; it silently computes the default budget 1 and publishes it over the
override. -/
theorem invalid_override_not_fatal_counterexample :
    validate 10 sampleOptions ⟨some "-1"⟩ = .ok (1, ⟨some "1"⟩) ∧
    validate 10 sampleOptions ⟨some "-1"⟩
      ≠ .error PyError.configuration := by
  constructor
  · decide
  · decide

/-- C4 amended: when the override variable is present but not a valid
non-negative integer string, `validate` raises no error at all: it silently
ignores the override, computes the default clamped budget, and overwrites
the environment value with it. -/
theorem validate_invalid_override_computes_default (p : Nat) (o : Options)
    (s : String) (hs : isnumeric s = false) (hp : 1 ≤ p) :
    validate p o ⟨some s⟩ =
      .ok (clamp (o.jobs / p) 1 3,
        ⟨some (toString (clamp (o.jobs / p) 1 3))⟩) :=
  validate_compute p o ⟨some s⟩ hs (by omega)

/-- Witness for the amended C4 at override "abc", w=4, p=10. -/
theorem validate_invalid_override_computes_default_witness :
    isnumeric "abc" = false ∧
    validate 10 sampleOptions ⟨some "abc"⟩ = .ok (1, ⟨some "1"⟩) :=
  ⟨by decide,
    (validate_invalid_override_computes_default 10 sampleOptions "abc"
      (by decide) (by decide)).trans (by decide)⟩

/-- C5 counterexample: with a total page count of 0 and no override present,
`validate` raises a division-by-zero error; there is no 1-page-minimum
guard. -/
theorem zero_pages_divides_by_zero_counterexample :
    validate 0 sampleOptions ⟨none⟩ = .error PyError.zeroDivision := by
  decide

/-- C5 amended: whenever the page count is 0 and no (numeric) override is
present, `validate` raises `ZeroDivisionError` instead of treating the page
count as 1. -/
theorem validate_zero_pages_raises (o : Options) (env : Env)
    (h : isnumeric env.getOmp = false) :
    validate 0 o env = .error PyError.zeroDivision :=
  validate_zero_div o env h

/-- Witness for the amended C5 with the override variable absent. -/
theorem validate_zero_pages_raises_witness :
    isnumeric (Env.mk none).getOmp = false ∧
    validate 0 sampleOptions ⟨none⟩ = .error PyError.zeroDivision :=
  ⟨by decide, validate_zero_pages_raises sampleOptions ⟨none⟩ (by decide)⟩

/-- C6 counterexample: after `validate` runs with the numeric override "7"
present, the adopted thread budget is 7, outside [1, 3], and the environment
keeps "7". -/
theorem budget_outside_range_counterexample :
    validate 1 sampleOptions ⟨some "7"⟩ = .ok (7, ⟨some "7"⟩) ∧
    ¬(7 ≤ 3) := by
  constructor
  · decide
  · decide

/-- C6 amended: after `validate` succeeds, the budget lies in [1, 3] and is
published when no numeric override was present beforehand; when a numeric
override was present, the budget is exactly int() of the override (possibly
outside [1, 3]) and the environment is unchanged. -/
theorem validate_budget_range (p : Nat) (o : Options) (env env2 : Env)
    (t : Nat) (h : validate p o env = .ok (t, env2)) :
    (isnumeric env.getOmp = false →
      1 ≤ t ∧ t ≤ 3 ∧ env2.getOmp = toString t) ∧
    (isnumeric env.getOmp = true → t = pyInt env.getOmp ∧ env2 = env) := by
  constructor
  · intro hn
    by_cases hp : p = 0
    · rw [hp] at h
      rw [validate_zero_div o env hn] at h
      exact absurd h (by simp)
    · rw [validate_compute p o env hn hp] at h
      simp only [Except.ok.injEq, Prod.mk.injEq] at h
      obtain ⟨ht, henv⟩ := h
      subst ht
      subst henv
      exact ⟨(clamp13_bounds _).1, (clamp13_bounds _).2, rfl⟩
  · intro hn
    rw [validate_adopt p o env hn] at h
    simp only [Except.ok.injEq, Prod.mk.injEq] at h
    exact ⟨h.1.symm, h.2.symm⟩

/-- Witness for the amended C6 at w=4, p=1, override absent. -/
theorem validate_budget_range_witness :
    (isnumeric (Env.mk none).getOmp = false →
      1 ≤ 3 ∧ 3 ≤ 3 ∧ (Env.mk (some "3")).getOmp = toString 3) ∧
    (isnumeric (Env.mk none).getOmp = true →
      3 = pyInt (Env.mk none).getOmp ∧ Env.mk (some "3") = Env.mk none) :=
  validate_budget_range 1 sampleOptions ⟨none⟩ ⟨some "3"⟩ 3 (by decide)

/-- C7: once `validate` has run successfully, every later run — with any page
count and any options — adopts the published budget and leaves the
environment unchanged, so the budget is frozen for the remainder of the
run. -/
theorem validate_idempotent (p p2 : Nat) (o o2 : Options) (env env2 : Env)
    (t : Nat) (h : validate p o env = .ok (t, env2)) :
    validate p2 o2 env2 = .ok (t, env2) := by
  by_cases hn : isnumeric env.getOmp = true
  · rw [validate_adopt p o env hn] at h
    simp only [Except.ok.injEq, Prod.mk.injEq] at h
    obtain ⟨ht, henv⟩ := h
    subst henv
    rw [validate_adopt p2 o2 env hn, ht]
  · rw [Bool.not_eq_true] at hn
    by_cases hp : p = 0
    · rw [hp, validate_zero_div o env hn] at h
      exact absurd h (by simp)
    · rw [validate_compute p o env hn hp] at h
      simp only [Except.ok.injEq, Prod.mk.injEq] at h
      obtain ⟨ht, henv⟩ := h
      subst ht
      subst henv
      obtain ⟨hnum, hval⟩ :=
        small_roundtrip (clamp (o.jobs / p) 1 3) (clamp13_bounds _).1
          (clamp13_bounds _).2
      have hgo : (Env.mk (some (toString (clamp (o.jobs / p) 1 3)))).getOmp
          = toString (clamp (o.jobs / p) 1 3) := rfl
      rw [validate_adopt p2 o2 ⟨some (toString (clamp (o.jobs / p) 1 3))⟩
            (by rw [hgo]; exact hnum),
          hgo, hval]

/-- Witness for C7: after a first run at w=4, p=1 published "3", a second run
at p=10 with the same options adopts 3 and leaves the environment
unchanged. -/
theorem validate_idempotent_witness :
    validate 10 sampleOptions ⟨some "3"⟩ = .ok (3, ⟨some "3"⟩) :=
  validate_idempotent 1 10 sampleOptions sampleOptions ⟨none⟩ ⟨some "3"⟩ 3
    (by decide)


/-- C8: when the probed engine does not support configurable thresholding and
a non-default thresholding method is requested, `check_options` emits exactly
one thresholding warning (and succeeds), and the thresholding option is
omitted from the outgoing engine calls of both `generate_hocr` and
`generate_pdf`. -/
theorem thresholding_unsupported_warn_and_omit (o : Options)
    (h : o.tesseract_thresholding ≠ 0) :
    (check_options false o).2.count Warning.thresholdingUnsupported = 1 ∧
    (generate_hocr false (check_options false o).1).thresholding = none ∧
    (generate_pdf false (check_options false o).1).thresholding = none := by
  refine ⟨?_, rfl, rfl⟩
  by_cases hr : o.pdf_renderer = "auto" <;>
    by_cases hp : o.tesseract_pagesegmode = some 0 ∨
        o.tesseract_pagesegmode = some 2 <;>
      simp [check_options, h, hr, hp, List.count_cons]

/-- Witness for C8 on `sauvolaOptions` (the extra pagesegmode warning does
not add a second thresholding warning). -/
theorem thresholding_unsupported_warn_and_omit_witness :
    sauvolaOptions.tesseract_thresholding ≠ 0 ∧
    ((check_options false sauvolaOptions).2.count
        Warning.thresholdingUnsupported = 1 ∧
      (generate_hocr false
        (check_options false sauvolaOptions).1).thresholding = none ∧
      (generate_pdf false
        (check_options false sauvolaOptions).1).thresholding = none) :=
  ⟨by decide,
    thresholding_unsupported_warn_and_omit sauvolaOptions (by decide)⟩

/-- C9: `check_options` emits the pagesegmode-disables-OCR warning exactly
when the selected page segmentation mode is 0 or 2, for every probed
thresholding capability and every other option value; this happens at
validation time, before any page is processed. -/
theorem pagesegmode_warning_iff (ht : Bool) (o : Options) :
    Warning.pagesegmodeDisablesOcr ∈ (check_options ht o).2 ↔
      (o.tesseract_pagesegmode = some 0 ∨
        o.tesseract_pagesegmode = some 2) := by
  by_cases hr : o.pdf_renderer = "auto" <;>
    by_cases hp : o.tesseract_pagesegmode = some 0 ∨
        o.tesseract_pagesegmode = some 2 <;>
      by_cases hw : (!ht) ∧ o.tesseract_thresholding ≠ 0 <;>
        simp [check_options, hr, hp, hw]

/-- C10: `check_options` rewrites the renderer field from auto to sandwich,
leaves any other renderer value unchanged, and modifies no other option
field. -/
theorem check_options_frame (ht : Bool) (o : Options) :
    ((check_options ht o).1.pdf_renderer =
      if o.pdf_renderer = "auto" then "sandwich" else o.pdf_renderer) ∧
    (check_options ht o).1.languages = o.languages ∧
    (check_options ht o).1.jobs = o.jobs ∧
    (check_options ht o).1.tesseract_config = o.tesseract_config ∧
    (check_options ht o).1.tesseract_pagesegmode
      = o.tesseract_pagesegmode ∧
    (check_options ht o).1.tesseract_oem = o.tesseract_oem ∧
    (check_options ht o).1.tesseract_thresholding
      = o.tesseract_thresholding ∧
    (check_options ht o).1.tesseract_timeout = o.tesseract_timeout ∧
    (check_options ht o).1.user_words = o.user_words ∧
    (check_options ht o).1.user_patterns = o.user_patterns := by
  by_cases hr : o.pdf_renderer = "auto" <;> simp [check_options, hr]

end OcrTess
